import Mathlib

/-!
Verification of the `rte-sys` foreign-function binding shim
(`src/crates/rte-sys/src/stub.c`, `src/crates/rte-sys/src/consts.h` and the
accompanying header of declarations).

The shim layer itself holds no state: every function body is a one-line
forwarding call into the native packet-processing library, or a direct
read/write of a per-thread slot owned by the native runtime.  We embed the
observable native state (per-thread lcore-id and errno slots, mempools,
RX/TX queues) as an explicit state record, give the native entry points
their documented semantics, and transcribe each stub function on top of
them.  Machine integers are `Nat` with explicit `% 2^w` where C conversion
or overflow matters.
-/

namespace RteSys

/-- C implicit conversion of an unsigned integer value to an unsigned
integer type of bit width `w` (reduction modulo `2^w`). -/
def toWidth (w : Nat) (v : Nat) : Nat := v % 2 ^ w

/-- Per-thread state owned by the native runtime: the `RTE_PER_LCORE(_lcore_id)`
slot (an `unsigned`, 32 bits) and the per-thread `rte_errno` slot (an `int`). -/
structure ThreadState where
  lcore_id : Nat
  errno : Int
deriving DecidableEq, Repr

/-- A packet-buffer descriptor (`struct rte_mbuf`): buffer address, total
buffer length, data offset (= headroom), data length, packet length, and
the id of the owning mempool.  All length/offset fields are 16-bit in the
native library except `pkt_len` (32-bit). -/
structure rte_mbuf where
  buf_addr : Nat
  buf_len : Nat
  data_off : Nat
  data_len : Nat
  pkt_len : Nat
  pool : Nat
deriving DecidableEq, Repr

/-- A fixed-size-object pool (`struct rte_mempool`): the objects currently
available in the pool, and the two per-object byte counts recorded in the
pktmbuf pool's private area. -/
structure rte_mempool where
  objs : List Nat
  priv_size : Nat
  data_room_size : Nat
deriving DecidableEq, Repr

/-- The observable state of the native library: per-thread slots, mempools
(indexed by pool id), pending packets per RX (port, queue) pair, and the
number of packets each TX (port, queue) pair can currently accept. -/
@[ext]
structure NativeState where
  threads : Nat → ThreadState
  pools : Nat → rte_mempool
  rxQueues : Nat → Nat → List rte_mbuf
  txReady : Nat → Nat → Nat

/-! ## Native entry points wrapped by the stub

These are external-library functions, not part of this repository; each is
modelled from the spec's description of its contract. -/

/-- Modelled from the spec: `rte_lcore_id` (native, header-inline) returns
the calling thread's assigned logical core identifier, i.e. the value of
that thread's `RTE_PER_LCORE(_lcore_id)` slot. -/
def rte_lcore_id (s : NativeState) (t : Nat) : Nat :=
  (s.threads t).lcore_id

/-- Modelled from the spec: reading `rte_errno` (native, per-thread) yields
the calling thread's last recorded error value and modifies nothing. -/
def rte_errno_read (s : NativeState) (t : Nat) : Int :=
  (s.threads t).errno

/-- Headroom of an mbuf: the number of bytes before the data start
(`rte_pktmbuf_headroom`, native). -/
def rte_pktmbuf_headroom (m : rte_mbuf) : Nat := m.data_off

/-- Modelled from the spec: `rte_pktmbuf_prepend` (native, header-inline)
grows a packet buffer's addressable header region by `len`, failing via a
null return exactly when insufficient headroom exists.  On success it moves
the data start back by `len`, enlarges `data_len` (16-bit) and `pkt_len`
(32-bit) by `len`, and returns the new data-start address. -/
def rte_pktmbuf_prepend (m : rte_mbuf) (len : Nat) : Option (rte_mbuf × Nat) :=
  if rte_pktmbuf_headroom m < len then none
  else
    let m' : rte_mbuf :=
      { m with
        data_off := m.data_off - len
        data_len := (m.data_len + len) % 2 ^ 16
        pkt_len := (m.pkt_len + len) % 2 ^ 32 }
    some (m', m'.buf_addr + m'.data_off)

/-- Modelled from the spec: `rte_pktmbuf_alloc` (native, header-inline)
acquires one packet-buffer descriptor from a pool, returning null when the
pool is exhausted. -/
def rte_pktmbuf_alloc (s : NativeState) (mp : Nat) :
    NativeState × Option rte_mbuf :=
  match (s.pools mp).objs with
  | [] => (s, none)
  | a :: rest =>
    ({ s with
       pools := fun p =>
         if p = mp then { s.pools p with objs := rest } else s.pools p },
     some { buf_addr := a, buf_len := (s.pools mp).data_room_size,
            data_off := 128, data_len := 0, pkt_len := 0, pool := mp })

/-- Modelled from the spec: `rte_pktmbuf_free` (native, header-inline)
releases a packet buffer back into its original mempool; a null pointer is
ignored and the call is a no-op. -/
def rte_pktmbuf_free (s : NativeState) (m : Option rte_mbuf) : NativeState :=
  match m with
  | none => s
  | some mb =>
    { s with
      pools := fun p =>
        if p = mb.pool then
          { s.pools p with objs := mb.buf_addr :: (s.pools p).objs }
        else s.pools p }

/-- Modelled from the spec: `rte_mempool_put_bulk` (native, header-inline)
puts the first `n` objects of `obj_table` back in the pool in one call; it
inspects no array element at or beyond index `n`. -/
def rte_mempool_put_bulk (s : NativeState) (mp : Nat)
    (obj_table : List Nat) (n : Nat) : NativeState :=
  { s with
    pools := fun p =>
      if p = mp then
        { s.pools p with objs := obj_table.take n ++ (s.pools p).objs }
      else s.pools p }

/-- Modelled from the spec: `rte_eth_rx_burst` (native, header-inline)
retrieves up to `nb_pkts` pending input packets from the given receive
queue, stores them in the caller's array, and returns the number actually
retrieved, which may be less than requested. -/
def rte_eth_rx_burst (s : NativeState) (port_id queue_id : Nat)
    (nb_pkts : Nat) : NativeState × List rte_mbuf × Nat :=
  let q := s.rxQueues port_id queue_id
  let got := q.take nb_pkts
  ({ s with
     rxQueues := fun p qq =>
       if p = port_id ∧ qq = queue_id then q.drop nb_pkts
       else s.rxQueues p qq },
   got, got.length)

/-- Modelled from the spec: `rte_eth_tx_burst` (native, header-inline)
sends up to `nb_pkts` of the caller's packets on the given transmit queue,
limited by what the device can currently accept, and returns the number
actually accepted, which may be less than requested. -/
def rte_eth_tx_burst (s : NativeState) (port_id queue_id : Nat)
    (tx_pkts : List rte_mbuf) (nb_pkts : Nat) : NativeState × Nat :=
  let cap := s.txReady port_id queue_id
  let sent := min nb_pkts cap
  ({ s with
     txReady := fun p qq =>
       if p = port_id ∧ qq = queue_id then cap - sent
       else s.txReady p qq },
   sent)

/-- Modelled from the spec: `rte_pktmbuf_priv_size` (native, header-inline)
is read-only introspection of a pool's per-object private byte count. -/
def rte_pktmbuf_priv_size (s : NativeState) (mp : Nat) : NativeState × Nat :=
  (s, (s.pools mp).priv_size)

/-- Modelled from the spec: `rte_pktmbuf_data_room_size` (native,
header-inline) is read-only introspection of a pool's per-object data room
byte count. -/
def rte_pktmbuf_data_room_size (s : NativeState) (mp : Nat) :
    NativeState × Nat :=
  (s, (s.pools mp).data_room_size)

/-! ## The stub functions (`stub.c`)

Each definition transcribes one function body of `stub.c`.  The calling
thread `t` is passed explicitly where the C function reads or writes
per-thread state. -/

/-- `_rte_set_mock_lcore` from `stub.c`: writes its `uint32_t` argument to
the calling thread's `RTE_PER_LCORE(_lcore_id)` slot. -/
def _rte_set_mock_lcore (s : NativeState) (t : Nat) (lcore_id : Nat) :
    NativeState :=
  { s with
    threads := fun u =>
      if u = t then { s.threads u with lcore_id := toWidth 32 lcore_id }
      else s.threads u }

/-- `_rte_lcore_id` from `stub.c`: `return rte_lcore_id();`. -/
def _rte_lcore_id (s : NativeState) (t : Nat) : Nat :=
  rte_lcore_id s t

/-- `_rte_errno` from `stub.c`: `return rte_errno;`. -/
def _rte_errno (s : NativeState) (t : Nat) : Int :=
  rte_errno_read s t

/-- `_rte_pktmbuf_prepend` from `stub.c`:
`return rte_pktmbuf_prepend(m, len);`. -/
def _rte_pktmbuf_prepend (m : rte_mbuf) (len : Nat) :
    Option (rte_mbuf × Nat) :=
  rte_pktmbuf_prepend m len

/-- `_rte_pktmbuf_alloc` from `stub.c`: `return rte_pktmbuf_alloc(mp);`. -/
def _rte_pktmbuf_alloc (s : NativeState) (mp : Nat) :
    NativeState × Option rte_mbuf :=
  rte_pktmbuf_alloc s mp

/-- `_rte_pktmbuf_free` from `stub.c`: `rte_pktmbuf_free(m);`. -/
def _rte_pktmbuf_free (s : NativeState) (m : Option rte_mbuf) : NativeState :=
  rte_pktmbuf_free s m

/-- `_rte_mempool_put_bulk` from `stub.c`:
`rte_mempool_put_bulk(mp, obj_table, n);`. -/
def _rte_mempool_put_bulk (s : NativeState) (mp : Nat)
    (obj_table : List Nat) (n : Nat) : NativeState :=
  rte_mempool_put_bulk s mp obj_table n

/-- `_rte_eth_rx_burst` from `stub.c`:
`return rte_eth_rx_burst(port_id, queue_id, rx_pkts, nb_pkts);`. -/
def _rte_eth_rx_burst (s : NativeState) (port_id queue_id : Nat)
    (nb_pkts : Nat) : NativeState × List rte_mbuf × Nat :=
  rte_eth_rx_burst s port_id queue_id nb_pkts

/-- `_rte_eth_tx_burst` from `stub.c`:
`return rte_eth_tx_burst(port_id, queue_id, tx_pkts, nb_pkts);`. -/
def _rte_eth_tx_burst (s : NativeState) (port_id queue_id : Nat)
    (tx_pkts : List rte_mbuf) (nb_pkts : Nat) : NativeState × Nat :=
  rte_eth_tx_burst s port_id queue_id tx_pkts nb_pkts

/-- `_rte_pktmbuf_priv_size` from `stub.c`:
`return rte_pktmbuf_priv_size(mp);`. -/
def _rte_pktmbuf_priv_size (s : NativeState) (mp : Nat) : NativeState × Nat :=
  rte_pktmbuf_priv_size s mp

/-- `_rte_pktmbuf_data_room_size` from `stub.c`:
`return rte_pktmbuf_data_room_size(mp);`. -/
def _rte_pktmbuf_data_room_size (s : NativeState) (mp : Nat) :
    NativeState × Nat :=
  rte_pktmbuf_data_room_size s mp

/-! ## One step of the shim's external interface

A single call through the shim layer, with the concrete arguments it was
given, and the state transition it induces.  This is used to state
read-after-write and frame properties across arbitrary interleavings of
shim calls. -/

/-- One call through the shim layer, with the calling thread where the
underlying C function reads or writes per-thread state. -/
inductive ShimCall where
  | setMockLcore (t v : Nat)
  | lcoreId (t : Nat)
  | errnoRead (t : Nat)
  | alloc (mp : Nat)
  | free (m : Option rte_mbuf)
  | putBulk (mp : Nat) (obj_table : List Nat) (n : Nat)
  | rxBurst (port_id queue_id nb_pkts : Nat)
  | txBurst (port_id queue_id : Nat) (tx_pkts : List rte_mbuf) (nb_pkts : Nat)
  | privSize (mp : Nat)
  | dataRoomSize (mp : Nat)
deriving DecidableEq, Repr

/-- The state transition induced by one shim call (queries leave the state
unchanged; mbuf-local operations such as prepend touch no library state). -/
def stepShim (s : NativeState) : ShimCall → NativeState
  | .setMockLcore t v => _rte_set_mock_lcore s t v
  | .lcoreId _ => s
  | .errnoRead _ => s
  | .alloc mp => (_rte_pktmbuf_alloc s mp).1
  | .free m => _rte_pktmbuf_free s m
  | .putBulk mp obj_table n => _rte_mempool_put_bulk s mp obj_table n
  | .rxBurst port_id queue_id nb_pkts =>
      (_rte_eth_rx_burst s port_id queue_id nb_pkts).1
  | .txBurst port_id queue_id tx_pkts nb_pkts =>
      (_rte_eth_tx_burst s port_id queue_id tx_pkts nb_pkts).1
  | .privSize mp => (_rte_pktmbuf_priv_size s mp).1
  | .dataRoomSize mp => (_rte_pktmbuf_data_room_size s mp).1

/-- Whether a shim call writes thread `t`'s lcore-id slot: only the mock
setter called on `t` itself does. -/
def writesLcoreOf (t : Nat) : ShimCall → Bool
  | .setMockLcore u _ => u = t
  | _ => false

/-! ## Syntactic transcription of `stub.c`

To settle the claims that the shim layer is pure pass-through and holds no
state of its own, we also transcribe each C function of `stub.c` as syntax:
an argument expression grammar rich enough to distinguish a verbatim
parameter from anything else, and a body grammar covering the three body
shapes that occur (return a call, return a per-thread global, assign a
per-thread global). -/

/-- A C argument expression as it could appear in a stub body. -/
inductive CExpr where
  | param (i : Nat)
  | lit (n : Nat)
  | globalRead (name : String)
deriving DecidableEq, Repr

/-- A stub function body. -/
inductive CBody where
  | returnCall (callee : String) (args : List CExpr)
  | returnPerThread (slot : String)
  | assignPerThread (slot : String) (rhs : CExpr)
deriving DecidableEq, Repr

/-- A file-scope declaration of `stub.c`. -/
inductive CDecl where
  | fn (name : String) (nParams : Nat) (body : CBody)
  | fileVar (name : String)
deriving DecidableEq, Repr

/-- The file `stub.c`, declaration by declaration, in source order. -/
def stubFile : List CDecl :=
  [ .fn "_rte_set_mock_lcore" 1 (.assignPerThread "_lcore_id" (.param 0)),
    .fn "_rte_lcore_id" 0 (.returnCall "rte_lcore_id" []),
    .fn "_rte_errno" 0 (.returnPerThread "rte_errno"),
    .fn "_rte_pktmbuf_prepend" 2
      (.returnCall "rte_pktmbuf_prepend" [.param 0, .param 1]),
    .fn "_rte_pktmbuf_alloc" 1 (.returnCall "rte_pktmbuf_alloc" [.param 0]),
    .fn "_rte_pktmbuf_free" 1 (.returnCall "rte_pktmbuf_free" [.param 0]),
    .fn "_rte_mempool_put_bulk" 3
      (.returnCall "rte_mempool_put_bulk" [.param 0, .param 1, .param 2]),
    .fn "_rte_eth_rx_burst" 4
      (.returnCall "rte_eth_rx_burst" [.param 0, .param 1, .param 2, .param 3]),
    .fn "_rte_eth_tx_burst" 4
      (.returnCall "rte_eth_tx_burst" [.param 0, .param 1, .param 2, .param 3]),
    .fn "_rte_pktmbuf_priv_size" 1
      (.returnCall "rte_pktmbuf_priv_size" [.param 0]),
    .fn "_rte_pktmbuf_data_room_size" 1
      (.returnCall "rte_pktmbuf_data_room_size" [.param 0]) ]

/-- A declaration is a pure forwarder: a function whose body either returns
a call of a native symbol applied to exactly its own parameters, verbatim
and in order, or reads a native per-thread slot, or (the test-mock setter)
stores its sole parameter verbatim into a native per-thread slot. -/
def isPureForwarder : CDecl → Bool
  | .fn _ nParams (.returnCall _ args) =>
      args = (List.range nParams).map CExpr.param
  | .fn nm _ (.returnPerThread _) => nm = "_rte_errno"
  | .fn nm nParams (.assignPerThread _ (.param 0)) =>
      nm = "_rte_set_mock_lcore" && nParams = 1
  | _ => false

/-- Per-thread slots owned by the native runtime that the stub may touch. -/
def nativeOwnedSlots : List String := ["_lcore_id", "rte_errno"]

/-- The per-thread slots a stub body reads or writes. -/
def bodySlots : CBody → List String
  | .returnCall _ _ => []
  | .returnPerThread slot => [slot]
  | .assignPerThread slot _ => [slot]

/-- Whether a declaration declares file-scope storage (a variable owned by
the shim layer itself). -/
def isFileVar : CDecl → Bool
  | .fileVar _ => true
  | .fn _ _ _ => false

/-! ## The constant export table (`consts.h`)

Each line of `consts.h` binds an underscore-prefixed name, at a declared
fixed-width unsigned type, to a symbolic flag defined by the native
library's headers.  The native values are unknown at this side (they are
the external dependency's, at whatever version is being bound), so the
table is interpreted against an arbitrary valuation of the native symbols;
the initializer applies nothing but C's implicit conversion to the
declared width. -/

/-- One line of `consts.h`: exported constant name, declared bit width,
and the native symbol it is initialized from. -/
structure ConstEntry where
  cname : String
  width : Nat
  sym : String
deriving DecidableEq, Repr

/-- Shorthand for a 64-bit table line. -/
def c64 (cname sym : String) : ConstEntry := ⟨cname, 64, sym⟩

/-- Shorthand for a 32-bit table line. -/
def c32 (cname sym : String) : ConstEntry := ⟨cname, 32, sym⟩

/-- The RX-offload block of `consts.h` (all `uint64_t`). -/
def rxOffloadConsts : List ConstEntry :=
  [ c64 "_RTE_ETH_RX_OFFLOAD_VLAN_STRIP" "RTE_ETH_RX_OFFLOAD_VLAN_STRIP",
    c64 "_RTE_ETH_RX_OFFLOAD_IPV4_CKSUM" "RTE_ETH_RX_OFFLOAD_IPV4_CKSUM",
    c64 "_RTE_ETH_RX_OFFLOAD_UDP_CKSUM" "RTE_ETH_RX_OFFLOAD_UDP_CKSUM",
    c64 "_RTE_ETH_RX_OFFLOAD_TCP_CKSUM" "RTE_ETH_RX_OFFLOAD_TCP_CKSUM",
    c64 "_RTE_ETH_RX_OFFLOAD_TCP_LRO" "RTE_ETH_RX_OFFLOAD_TCP_LRO",
    c64 "_RTE_ETH_RX_OFFLOAD_QINQ_STRIP" "RTE_ETH_RX_OFFLOAD_QINQ_STRIP",
    c64 "_RTE_ETH_RX_OFFLOAD_OUTER_IPV4_CKSUM" "RTE_ETH_RX_OFFLOAD_OUTER_IPV4_CKSUM",
    c64 "_RTE_ETH_RX_OFFLOAD_MACSEC_STRIP" "RTE_ETH_RX_OFFLOAD_MACSEC_STRIP",
    c64 "_RTE_ETH_RX_OFFLOAD_VLAN_FILTER" "RTE_ETH_RX_OFFLOAD_VLAN_FILTER",
    c64 "_RTE_ETH_RX_OFFLOAD_VLAN_EXTEND" "RTE_ETH_RX_OFFLOAD_VLAN_EXTEND",
    c64 "_RTE_ETH_RX_OFFLOAD_SCATTER" "RTE_ETH_RX_OFFLOAD_SCATTER",
    c64 "_RTE_ETH_RX_OFFLOAD_TIMESTAMP" "RTE_ETH_RX_OFFLOAD_TIMESTAMP",
    c64 "_RTE_ETH_RX_OFFLOAD_SECURITY" "RTE_ETH_RX_OFFLOAD_SECURITY",
    c64 "_RTE_ETH_RX_OFFLOAD_KEEP_CRC" "RTE_ETH_RX_OFFLOAD_KEEP_CRC",
    c64 "_RTE_ETH_RX_OFFLOAD_SCTP_CKSUM" "RTE_ETH_RX_OFFLOAD_SCTP_CKSUM",
    c64 "_RTE_ETH_RX_OFFLOAD_OUTER_UDP_CKSUM" "RTE_ETH_RX_OFFLOAD_OUTER_UDP_CKSUM",
    c64 "_RTE_ETH_RX_OFFLOAD_RSS_HASH" "RTE_ETH_RX_OFFLOAD_RSS_HASH" ]

/-- The TX-offload block of `consts.h` (all `uint64_t`). -/
def txOffloadConsts : List ConstEntry :=
  [ c64 "_RTE_ETH_TX_OFFLOAD_VLAN_INSERT" "RTE_ETH_TX_OFFLOAD_VLAN_INSERT",
    c64 "_RTE_ETH_TX_OFFLOAD_IPV4_CKSUM" "RTE_ETH_TX_OFFLOAD_IPV4_CKSUM",
    c64 "_RTE_ETH_TX_OFFLOAD_UDP_CKSUM" "RTE_ETH_TX_OFFLOAD_UDP_CKSUM",
    c64 "_RTE_ETH_TX_OFFLOAD_TCP_CKSUM" "RTE_ETH_TX_OFFLOAD_TCP_CKSUM",
    c64 "_RTE_ETH_TX_OFFLOAD_SCTP_CKSUM" "RTE_ETH_TX_OFFLOAD_SCTP_CKSUM",
    c64 "_RTE_ETH_TX_OFFLOAD_TCP_TSO" "RTE_ETH_TX_OFFLOAD_TCP_TSO",
    c64 "_RTE_ETH_TX_OFFLOAD_UDP_TSO" "RTE_ETH_TX_OFFLOAD_UDP_TSO",
    c64 "_RTE_ETH_TX_OFFLOAD_OUTER_IPV4_CKSUM" "RTE_ETH_TX_OFFLOAD_OUTER_IPV4_CKSUM",
    c64 "_RTE_ETH_TX_OFFLOAD_QINQ_INSERT" "RTE_ETH_TX_OFFLOAD_QINQ_INSERT",
    c64 "_RTE_ETH_TX_OFFLOAD_VXLAN_TNL_TSO" "RTE_ETH_TX_OFFLOAD_VXLAN_TNL_TSO",
    c64 "_RTE_ETH_TX_OFFLOAD_GRE_TNL_TSO" "RTE_ETH_TX_OFFLOAD_GRE_TNL_TSO",
    c64 "_RTE_ETH_TX_OFFLOAD_IPIP_TNL_TSO" "RTE_ETH_TX_OFFLOAD_IPIP_TNL_TSO",
    c64 "_RTE_ETH_TX_OFFLOAD_GENEVE_TNL_TSO" "RTE_ETH_TX_OFFLOAD_GENEVE_TNL_TSO",
    c64 "_RTE_ETH_TX_OFFLOAD_MACSEC_INSERT" "RTE_ETH_TX_OFFLOAD_MACSEC_INSERT",
    c64 "_RTE_ETH_TX_OFFLOAD_MT_LOCKFREE" "RTE_ETH_TX_OFFLOAD_MT_LOCKFREE",
    c64 "_RTE_ETH_TX_OFFLOAD_MULTI_SEGS" "RTE_ETH_TX_OFFLOAD_MULTI_SEGS",
    c64 "_RTE_ETH_TX_OFFLOAD_MBUF_FAST_FREE" "RTE_ETH_TX_OFFLOAD_MBUF_FAST_FREE",
    c64 "_RTE_ETH_TX_OFFLOAD_SECURITY" "RTE_ETH_TX_OFFLOAD_SECURITY",
    c64 "_RTE_ETH_TX_OFFLOAD_UDP_TNL_TSO" "RTE_ETH_TX_OFFLOAD_UDP_TNL_TSO",
    c64 "_RTE_ETH_TX_OFFLOAD_IP_TNL_TSO" "RTE_ETH_TX_OFFLOAD_IP_TNL_TSO",
    c64 "_RTE_ETH_TX_OFFLOAD_OUTER_UDP_CKSUM" "RTE_ETH_TX_OFFLOAD_OUTER_UDP_CKSUM",
    c64 "_RTE_ETH_TX_OFFLOAD_SEND_ON_TIMESTAMP" "RTE_ETH_TX_OFFLOAD_SEND_ON_TIMESTAMP" ]

/-- The multi-queue flag block of `consts.h` (all `uint32_t`). -/
def mqConsts : List ConstEntry :=
  [ c32 "_RTE_ETH_MQ_RX_RSS_FLAG" "RTE_ETH_MQ_RX_RSS_FLAG",
    c32 "_RTE_ETH_MQ_RX_DCB_FLAG" "RTE_ETH_MQ_RX_DCB_FLAG",
    c32 "_RTE_ETH_MQ_RX_VMDQ_FLAG" "RTE_ETH_MQ_RX_VMDQ_FLAG" ]

/-- The RSS hash-field block of `consts.h` (all `uint32_t`). -/
def rssConsts : List ConstEntry :=
  [ c32 "_RTE_ETH_RSS_IPV4" "RTE_ETH_RSS_IPV4",
    c32 "_RTE_ETH_RSS_FRAG_IPV4" "RTE_ETH_RSS_FRAG_IPV4",
    c32 "_RTE_ETH_RSS_NONFRAG_IPV4_TCP" "RTE_ETH_RSS_NONFRAG_IPV4_TCP",
    c32 "_RTE_ETH_RSS_NONFRAG_IPV4_UDP" "RTE_ETH_RSS_NONFRAG_IPV4_UDP",
    c32 "_RTE_ETH_RSS_NONFRAG_IPV4_SCTP" "RTE_ETH_RSS_NONFRAG_IPV4_SCTP",
    c32 "_RTE_ETH_RSS_NONFRAG_IPV4_OTHER" "RTE_ETH_RSS_NONFRAG_IPV4_OTHER",
    c32 "_RTE_ETH_RSS_IPV6" "RTE_ETH_RSS_IPV6",
    c32 "_RTE_ETH_RSS_FRAG_IPV6" "RTE_ETH_RSS_FRAG_IPV6",
    c32 "_RTE_ETH_RSS_NONFRAG_IPV6_TCP" "RTE_ETH_RSS_NONFRAG_IPV6_TCP",
    c32 "_RTE_ETH_RSS_NONFRAG_IPV6_UDP" "RTE_ETH_RSS_NONFRAG_IPV6_UDP",
    c32 "_RTE_ETH_RSS_NONFRAG_IPV6_SCTP" "RTE_ETH_RSS_NONFRAG_IPV6_SCTP",
    c32 "_RTE_ETH_RSS_NONFRAG_IPV6_OTHER" "RTE_ETH_RSS_NONFRAG_IPV6_OTHER",
    c32 "_RTE_ETH_RSS_L2_PAYLOAD" "RTE_ETH_RSS_L2_PAYLOAD",
    c32 "_RTE_ETH_RSS_IPV6_EX" "RTE_ETH_RSS_IPV6_EX",
    c32 "_RTE_ETH_RSS_IPV6_TCP_EX" "RTE_ETH_RSS_IPV6_TCP_EX",
    c32 "_RTE_ETH_RSS_IPV6_UDP_EX" "RTE_ETH_RSS_IPV6_UDP_EX",
    c32 "_RTE_ETH_RSS_PORT" "RTE_ETH_RSS_PORT",
    c32 "_RTE_ETH_RSS_VXLAN" "RTE_ETH_RSS_VXLAN",
    c32 "_RTE_ETH_RSS_GENEVE" "RTE_ETH_RSS_GENEVE",
    c32 "_RTE_ETH_RSS_NVGRE" "RTE_ETH_RSS_NVGRE",
    c32 "_RTE_ETH_RSS_GTPU" "RTE_ETH_RSS_GTPU",
    c32 "_RTE_ETH_RSS_ETH" "RTE_ETH_RSS_ETH",
    c32 "_RTE_ETH_RSS_S_VLAN" "RTE_ETH_RSS_S_VLAN",
    c32 "_RTE_ETH_RSS_C_VLAN" "RTE_ETH_RSS_C_VLAN",
    c32 "_RTE_ETH_RSS_ESP" "RTE_ETH_RSS_ESP",
    c32 "_RTE_ETH_RSS_AH" "RTE_ETH_RSS_AH",
    c32 "_RTE_ETH_RSS_L2TPV3" "RTE_ETH_RSS_L2TPV3",
    c32 "_RTE_ETH_RSS_PFCP" "RTE_ETH_RSS_PFCP",
    c32 "_RTE_ETH_RSS_PPPOE" "RTE_ETH_RSS_PPPOE",
    c32 "_RTE_ETH_RSS_ECPRI" "RTE_ETH_RSS_ECPRI",
    c32 "_RTE_ETH_RSS_MPLS" "RTE_ETH_RSS_MPLS" ]

/-- The whole of `consts.h`, in source order. -/
def constTable : List ConstEntry :=
  rxOffloadConsts ++ txOffloadConsts ++ mqConsts ++ rssConsts

/-- The run-time value of an exported constant under a valuation `v` of the
native symbols: the initializer is the bare native symbol, so the only
operation is C's implicit conversion to the declared width. -/
def exportedValue (v : String → Nat) (e : ConstEntry) : Nat :=
  toWidth e.width (v e.sym)

/-- A call forwarder's name is the wrapped native symbol's name with a
single leading underscore. -/
def forwardsToMatchingNative : CDecl → Bool
  | .fn nm _ (.returnCall callee _) => nm = "_" ++ callee
  | _ => true

/-- A declaration touches only per-thread slots owned by the native
runtime (and is not file-scope storage of the shim's own). -/
def touchesOnlyNativeSlots : CDecl → Bool
  | .fn _ _ body => (bodySlots body).all (fun sl => nativeOwnedSlots.contains sl)
  | .fileVar _ => false

/-- A concrete native state used to instantiate theorems at sample
inputs. -/
def s0 : NativeState where
  threads := fun _ => { lcore_id := 0, errno := 0 }
  pools := fun _ => { objs := [10, 11], priv_size := 8, data_room_size := 2048 }
  rxQueues := fun _ _ => []
  txReady := fun _ _ => 0

/-! ## Helper lemmas -/

/-- A shim call that is not the mock setter on thread `t` leaves thread
`t`'s lcore-id slot unchanged. -/
theorem stepShim_preserves_lcore (s : NativeState) (c : ShimCall) (t : Nat)
    (h : writesLcoreOf t c = false) :
    ((stepShim s c).threads t).lcore_id = ((s.threads t)).lcore_id := by
  cases c with
  | setMockLcore u v =>
    have hut : ¬ (u = t) := by simpa [writesLcoreOf] using h
    have htu : ¬ (t = u) := fun hh => hut hh.symm
    simp [stepShim, _rte_set_mock_lcore, htu]
  | lcoreId _ => rfl
  | errnoRead _ => rfl
  | alloc mp =>
    simp only [stepShim, _rte_pktmbuf_alloc, rte_pktmbuf_alloc]
    cases (s.pools mp).objs <;> rfl
  | free m => cases m <;> rfl
  | putBulk mp obj_table n => rfl
  | rxBurst p q nb => rfl
  | txBurst p q pkts nb => rfl
  | privSize mp => rfl
  | dataRoomSize mp => rfl

/-- Folding any sequence of shim calls none of which writes thread `t`'s
lcore-id slot preserves that slot. -/
theorem foldl_preserves_lcore (t : Nat) :
    ∀ (ops : List ShimCall) (s : NativeState),
      (∀ c ∈ ops, writesLcoreOf t c = false) →
      ((ops.foldl stepShim s).threads t).lcore_id = ((s.threads t)).lcore_id
  | [], _, _ => rfl
  | c :: ops, s, h => by
    have h1 : writesLcoreOf t c = false := h c (List.mem_cons_self _ _)
    have h2 : ∀ c' ∈ ops, writesLcoreOf t c' = false :=
      fun c' hc' => h c' (List.mem_cons_of_mem _ hc')
    rw [List.foldl_cons, foldl_preserves_lcore t ops (stepShim s c) h2,
      stepShim_preserves_lcore s c t h1]

/-- Every line of `consts.h` exports a name that is the native symbol's
name with a single leading underscore. -/
theorem constTable_names_match :
    constTable.all (fun e => e.cname = "_" ++ e.sym) = true := by decide

/-- The declared widths of `consts.h` follow its four blocks: 64 bits for
the RX and TX offload flags, 32 bits for the multi-queue and RSS flags. -/
theorem constTable_widths :
    (rxOffloadConsts.all (fun e => e.width = 64) &&
     txOffloadConsts.all (fun e => e.width = 64) &&
     mqConsts.all (fun e => e.width = 32) &&
     rssConsts.all (fun e => e.width = 32)) = true := by decide

/-! ## The claims -/

/-- C1: every line of the constant export table binds the underscore-
prefixed name of a native symbol, at the block's declared fixed width
(`uint64_t` for RX/TX offload flags, `uint32_t` for multi-queue and RSS
flags), to the bare native symbol's value: under any valuation of the
native symbols, whenever the native value fits the declared width the
exported value equals it exactly, no derivation or computation being
applied beyond C's conversion to the declared type. -/
theorem const_export_exact (v : String → Nat) (e : ConstEntry)
    (he : e ∈ constTable) (hfit : v e.sym < 2 ^ e.width) :
    exportedValue v e = v e.sym ∧
    e.cname = "_" ++ e.sym ∧
    ((e ∈ rxOffloadConsts ∨ e ∈ txOffloadConsts) → e.width = 64) ∧
    ((e ∈ mqConsts ∨ e ∈ rssConsts) → e.width = 32) := by
  refine ⟨?_, ?_, ?_, ?_⟩
  · simp [exportedValue, toWidth, Nat.mod_eq_of_lt hfit]
  · have h := constTable_names_match
    rw [List.all_eq_true] at h
    exact of_decide_eq_true (h e he)
  · intro hmem
    have h := constTable_widths
    simp only [Bool.and_eq_true, List.all_eq_true] at h
    rcases hmem with h1 | h1
    · exact of_decide_eq_true (h.1.1.1 e h1)
    · exact of_decide_eq_true (h.1.1.2 e h1)
  · intro hmem
    have h := constTable_widths
    simp only [Bool.and_eq_true, List.all_eq_true] at h
    rcases hmem with h1 | h1
    · exact of_decide_eq_true (h.1.2 e h1)
    · exact of_decide_eq_true (h.2 e h1)

/-- Witness for C1 at a concrete entry and valuation. -/
theorem const_export_exact_witness :
    c64 "_RTE_ETH_RX_OFFLOAD_VLAN_STRIP" "RTE_ETH_RX_OFFLOAD_VLAN_STRIP"
      ∈ constTable ∧
    exportedValue (fun _ => 7)
      (c64 "_RTE_ETH_RX_OFFLOAD_VLAN_STRIP" "RTE_ETH_RX_OFFLOAD_VLAN_STRIP")
      = 7 :=
  ⟨by decide,
   (const_export_exact (fun _ => 7) _ (by decide) (by norm_num [c64])).1⟩

/-- C2: for every state and all arguments, the RX burst forwarder and the
TX burst forwarder each return a transfer count at most the requested
count `nb_pkts`. -/
theorem burst_counts_le_requested (s : NativeState)
    (port_id queue_id nb_pkts : Nat) (tx_pkts : List rte_mbuf) :
    (_rte_eth_rx_burst s port_id queue_id nb_pkts).2.2 ≤ nb_pkts ∧
    (_rte_eth_tx_burst s port_id queue_id tx_pkts nb_pkts).2 ≤ nb_pkts := by
  constructor
  · simp only [_rte_eth_rx_burst, rte_eth_rx_burst, List.length_take]
    exact Nat.min_le_left _ _
  · simp only [_rte_eth_tx_burst, rte_eth_tx_burst]
    exact Nat.min_le_left _ _

/-- C3: each stub function forwards verbatim.  Syntactically, every
declaration of `stub.c` is a pure forwarder whose call arguments are
exactly its own parameters, in order, applied to the native symbol of the
same name minus the leading underscore; semantically, every shim is
extensionally equal to the wrapped native function at all arguments, the
result passed back unchanged. -/
theorem shims_forward_verbatim :
    stubFile.all (fun d => isPureForwarder d && forwardsToMatchingNative d)
      = true ∧
    (∀ s t, _rte_lcore_id s t = rte_lcore_id s t) ∧
    (∀ s t, _rte_errno s t = rte_errno_read s t) ∧
    (∀ m len, _rte_pktmbuf_prepend m len = rte_pktmbuf_prepend m len) ∧
    (∀ s mp, _rte_pktmbuf_alloc s mp = rte_pktmbuf_alloc s mp) ∧
    (∀ s m, _rte_pktmbuf_free s m = rte_pktmbuf_free s m) ∧
    (∀ s mp obj_table n,
      _rte_mempool_put_bulk s mp obj_table n
        = rte_mempool_put_bulk s mp obj_table n) ∧
    (∀ s p q nb, _rte_eth_rx_burst s p q nb = rte_eth_rx_burst s p q nb) ∧
    (∀ s p q pkts nb,
      _rte_eth_tx_burst s p q pkts nb = rte_eth_tx_burst s p q pkts nb) ∧
    (∀ s mp, _rte_pktmbuf_priv_size s mp = rte_pktmbuf_priv_size s mp) ∧
    (∀ s mp,
      _rte_pktmbuf_data_room_size s mp = rte_pktmbuf_data_room_size s mp) :=
  ⟨by decide, fun _ _ => rfl, fun _ _ => rfl, fun _ _ => rfl, fun _ _ => rfl,
   fun _ _ => rfl, fun _ _ _ _ => rfl, fun _ _ _ _ => rfl,
   fun _ _ _ _ _ => rfl, fun _ _ => rfl, fun _ _ => rfl⟩

/-- C4: after the mock-lcore setter stores `v` for thread `t`, the lcore-id
query on `t` returns `v` across any subsequent sequence of shim calls that
does not invoke the setter on `t` again, and the setter leaves every other
thread's per-thread state untouched. -/
theorem mock_lcore_read_after_write (s : NativeState) (t v : Nat)
    (ops : List ShimCall) (hv : v < 2 ^ 32)
    (hops : ∀ c ∈ ops, writesLcoreOf t c = false) :
    _rte_lcore_id (ops.foldl stepShim (_rte_set_mock_lcore s t v)) t = v ∧
    ∀ u, u ≠ t → (_rte_set_mock_lcore s t v).threads u = s.threads u := by
  constructor
  · rw [_rte_lcore_id, rte_lcore_id,
      foldl_preserves_lcore t ops (_rte_set_mock_lcore s t v) hops]
    have hslot : ((_rte_set_mock_lcore s t v).threads t).lcore_id
        = v % 2 ^ 32 := by
      simp [_rte_set_mock_lcore, toWidth]
    rw [hslot]
    omega
  · intro u hu
    simp [_rte_set_mock_lcore, hu]

/-- Witness for C4: setting lcore 5 on thread 0 and then running an RX
burst and an errno read leaves the query returning 5. -/
theorem mock_lcore_read_after_write_witness :
    5 < 2 ^ 32 ∧
    _rte_lcore_id
      (([ShimCall.rxBurst 0 0 3, ShimCall.errnoRead 1]).foldl stepShim
        (_rte_set_mock_lcore s0 0 5)) 0 = 5 :=
  ⟨by norm_num,
   (mock_lcore_read_after_write s0 0 5 [ShimCall.rxBurst 0 0 3,
      ShimCall.errnoRead 1] (by norm_num) (by decide)).1⟩

/-- C5: the prepend forwarder grows the addressable header region by `len`
and returns the new (non-null) data-start address exactly when sufficient
headroom exists, and returns null exactly when headroom is insufficient;
for any mbuf satisfying the native length invariant, the grown lengths are
exact (no 16-bit wrap occurs). -/
theorem prepend_headroom (m : rte_mbuf) (len : Nat)
    (hwf : m.data_off + m.data_len ≤ m.buf_len) (hbuf : m.buf_len < 2 ^ 16) :
    (rte_pktmbuf_headroom m < len → _rte_pktmbuf_prepend m len = none) ∧
    (len ≤ rte_pktmbuf_headroom m →
      ∃ m' p, _rte_pktmbuf_prepend m len = some (m', p) ∧
        m'.data_off = m.data_off - len ∧
        m'.data_len = m.data_len + len ∧
        p = m.buf_addr + (m.data_off - len)) := by
  constructor
  · intro hlt
    simp [_rte_pktmbuf_prepend, rte_pktmbuf_prepend, hlt]
  · intro hle
    have hnlt : ¬ rte_pktmbuf_headroom m < len := Nat.not_lt.mpr hle
    have hlo : len ≤ m.data_off := by
      simpa [rte_pktmbuf_headroom] using hle
    have hfit : m.data_len + len < 2 ^ 16 := by omega
    refine ⟨({ m with
                data_off := m.data_off - len
                data_len := (m.data_len + len) % 2 ^ 16
                pkt_len := (m.pkt_len + len) % 2 ^ 32 } : rte_mbuf),
            m.buf_addr + (m.data_off - len), ?_, rfl, ?_, rfl⟩
    · simp [_rte_pktmbuf_prepend, rte_pktmbuf_prepend, hnlt]
    · simpa using Nat.mod_eq_of_lt hfit

/-- Witness for C5 at a concrete mbuf with 128 bytes of headroom. -/
theorem prepend_headroom_witness :
    (128 : Nat) + 100 ≤ 2048 ∧ (2048 : Nat) < 2 ^ 16 ∧
    (∃ m' p,
      _rte_pktmbuf_prepend
        { buf_addr := 4096, buf_len := 2048, data_off := 128,
          data_len := 100, pkt_len := 100, pool := 0 } 64 = some (m', p) ∧
      m'.data_off = 128 - 64 ∧
      m'.data_len = 100 + 64 ∧
      p = 4096 + (128 - 64)) :=
  ⟨by norm_num, by norm_num,
   (prepend_headroom
      { buf_addr := 4096, buf_len := 2048, data_off := 128,
        data_len := 100, pkt_len := 100, pool := 0 } 64
      (by norm_num) (by norm_num)).2 (by decide)⟩

/-- C6: the bulk pool-object return forwarder inspects no array element at
or beyond the declared count `n` — its result depends only on the first
`n` elements — and a call with `n = 0` leaves the state (pool included)
unchanged; the array itself is never written. -/
theorem put_bulk_bounded (s : NativeState) (mp : Nat)
    (obj_table : List Nat) (n : Nat) :
    _rte_mempool_put_bulk s mp obj_table 0 = s ∧
    (∀ obj_table', obj_table.take n = obj_table'.take n →
      _rte_mempool_put_bulk s mp obj_table n
        = _rte_mempool_put_bulk s mp obj_table' n) := by
  constructor
  · have hpools :
        (fun p => if p = mp then
            { s.pools p with objs := obj_table.take 0 ++ (s.pools p).objs }
          else s.pools p) = s.pools := by
      funext p
      by_cases h : p = mp <;> simp [h]
    calc _rte_mempool_put_bulk s mp obj_table 0
        = { s with pools := fun p => if p = mp then
              { s.pools p with objs := obj_table.take 0 ++ (s.pools p).objs }
            else s.pools p } := rfl
      _ = { s with pools := s.pools } := by rw [hpools]
      _ = s := rfl
  · intro obj_table' htake
    simp only [_rte_mempool_put_bulk, rte_mempool_put_bulk, htake]

/-- Witness for C6: two arrays agreeing on their first element give the
same state, and a zero-count call is a no-op. -/
theorem put_bulk_bounded_witness :
    _rte_mempool_put_bulk s0 0 [1, 2, 3] 0 = s0 ∧
    ([1, 2, 3] : List Nat).take 1 = ([1, 99] : List Nat).take 1 ∧
    _rte_mempool_put_bulk s0 0 [1, 2, 3] 1
      = _rte_mempool_put_bulk s0 0 [1, 99] 1 :=
  ⟨(put_bulk_bounded s0 0 [1, 2, 3] 0).1, by decide,
   (put_bulk_bounded s0 0 [1, 2, 3] 1).2 [1, 99] (by decide)⟩

/-- C7: the shim layer owns no state: `stub.c` declares no file-scope
variable, every per-thread slot any body reads or writes is owned by the
native runtime (`_lcore_id`, `rte_errno`), and the pure queries do not
change the state at all. -/
theorem shim_layer_stateless :
    stubFile.all (fun d => !isFileVar d) = true ∧
    stubFile.all touchesOnlyNativeSlots = true ∧
    (∀ s t, stepShim s (.lcoreId t) = s) ∧
    (∀ s t, stepShim s (.errnoRead t) = s) :=
  ⟨by decide, by decide, fun _ _ => rfl, fun _ _ => rfl⟩

/-- C8: the pool metadata query forwarders return the pool's recorded
private-size and data-room-size byte counts and leave the state — the pool
included — unchanged. -/
theorem pool_metadata_queries_readonly (s : NativeState) (mp : Nat) :
    _rte_pktmbuf_priv_size s mp = (s, (s.pools mp).priv_size) ∧
    _rte_pktmbuf_data_room_size s mp = (s, (s.pools mp).data_room_size) :=
  ⟨rfl, rfl⟩

/-- C9: the free forwarder applied to a null mbuf pointer is a no-op: it
returns with the whole state, every pool included, unchanged. -/
theorem free_null_noop (s : NativeState) :
    _rte_pktmbuf_free s none = s := rfl

/-- C10: the error-code query is a pure read of the calling thread's
per-thread error slot: it returns the last recorded value, changes no
state, and two consecutive calls on the same thread with no intervening
call return the same value. -/
theorem errno_read_pure (s : NativeState) (t : Nat) :
    stepShim s (.errnoRead t) = s ∧
    _rte_errno s t = (s.threads t).errno ∧
    _rte_errno (stepShim s (.errnoRead t)) t = _rte_errno s t :=
  ⟨rfl, rfl, rfl⟩

end RteSys
